import Mathlib

/-!
Verification of the pyspark haystack/zinc client library.

This file gives a shallow embedding, in Lean 4, of the parts of the
repository that the verified properties talk about:

* the zinc grammar character predicates (`src/zinc/grammer.py`),
* the value model (`src/ztypes.py`): the `HVal` variants, `HNum`
  equality, and the lexeme readers of `HZincReader`,
* the streaming lexer (`src/zinc/lexer.py`) as fueled state-passing
  functions over an explicit character cursor,
* the recursive-descent parser (`src/zinc/parser.py`) as fueled
  functions over an explicit token cursor,
* the unpadded url-safe base64 helpers (`src/helpers/unpadded_base64.py`)
  together with a model of the (lenient) padding semantics of the Python
  `base64`/`binascii` decoder they call,
* the authentication handshake (`src/client/client.py`) as a function of
  the three HTTP responses, with the external SCRAM library abstracted
  by an opaque record of operations.

Modelling conventions:

* Python `float` is modelled by `PFloat`: an exact rational together
  with the three non-finite values.  All numeric literals the claims
  touch are exactly representable, so rational arithmetic agrees with
  IEEE double arithmetic on them.
* Python exceptions become `Except` values; the distinct exception
  classes of the source (its own error dataclasses, and built-in
  `KeyError`/`ValueError`) are distinct constructors, because one of the
  verified properties is about which class is raised.
* The `while` loops of the lexer and the recursive descent of the
  parser are given a `fuel` parameter; every loop of the source
  consumes at least one character (or token) per iteration, so any fuel
  larger than the input length makes the embedding agree with the
  source.  All theorems below evaluate at concrete inputs with ample
  fuel.
-/

namespace PySpark

/-! ### Grammar predicates (`src/zinc/grammer.py`) -/

namespace ZincGrammar

def is_alpha_lo (c : Char) : Bool :=
  'a'.toNat ≤ c.toNat && c.toNat ≤ 'z'.toNat

def is_alpha_hi (c : Char) : Bool :=
  'A'.toNat ≤ c.toNat && c.toNat ≤ 'Z'.toNat

def is_alpha (c : Char) : Bool :=
  is_alpha_lo c || is_alpha_hi c

def is_digit (c : Char) : Bool :=
  '0'.toNat ≤ c.toNat && c.toNat ≤ '9'.toNat

def is_unit_char (c : Char) : Bool :=
  is_alpha c || c == '%' || c == '_' || c == '/' || c == '$' || c.toNat > 128

/-- `is_unit` of the source is an index loop with an early `return False`;
we embed it as a recursion over the character list of the string. -/
def is_unit_list : List Char → Bool
  | [] => true
  | c :: rest => if ¬ is_unit_char c then false else is_unit_list rest

def is_unit (s : String) : Bool :=
  is_unit_list s.data

def is_number_start (c : Char) : Bool :=
  is_digit c || c == '-'

def is_hex_digit (c : Char) : Bool :=
  ('a'.toNat ≤ c.toNat && c.toNat ≤ 'f'.toNat)
    || ('A'.toNat ≤ c.toNat && c.toNat ≤ 'F'.toNat)
    || is_digit c

def is_ref_char (c : Char) : Bool :=
  is_alpha c || is_digit c || c == '_' || c == ':' || c == '-' || c == '.' || c == '~'

def is_id_start (c : Char) : Bool :=
  is_alpha_lo c

def is_id_part (c : Char) : Bool :=
  is_alpha c || is_digit c || c == '_'

def is_keyword_start (c : Char) : Bool :=
  is_alpha_hi c

def is_keyword_part (c : Char) : Bool :=
  is_alpha c

def is_ref_start (c : Char) : Bool :=
  c == '@'

def is_ref_part (c : Char) : Bool :=
  is_ref_char c

def is_ref_end (c : Char) : Bool :=
  c == ' '

def is_symbol_start (c : Char) : Bool :=
  c == '^'

def is_symbol_part (c : Char) : Bool :=
  is_ref_char c

def is_str_start (c : Char) : Bool :=
  c == '"'

def is_str_escape (c : Char) : Bool :=
  c == '\\'

def is_uri_escape (c : Char) : Bool :=
  c == '\\'

def is_uri_escaped_uni (c : Char) : Bool :=
  c == 'u'

def is_str_escaped_char (c : Char) : Bool :=
  c == 'b' || c == 'f' || c == 'n' || c == 'r' || c == 't' || c == '\\' || c == '$' || c == '"'

def is_str_escped_uni (c : Char) : Bool :=
  c == 'u'

def is_str_end (c : Char) : Bool :=
  c == '"'

/-- The URI delimiter is the backtick, codepoint 96. -/
def uriTick : Char := Char.ofNat 96

def is_uri_start (c : Char) : Bool :=
  c == uriTick

def is_uri_escaped_char (c : Char) : Bool :=
  c == ':' || c == '/' || c == '?' || c == '#' || c == '[' || c == ']'
    || c == '@' || c == uriTick || c == '\\' || c == '&' || c == '=' || c == ';'

def is_uri_end (c : Char) : Bool :=
  c == uriTick

def is_whitespace (c : Char) : Bool :=
  c == ' ' || c == '\t' || c.toNat == 0xA0

def is_unicode_char (c : Char) : Bool :=
  c.toNat ≥ 0x20

def is_nan (s : String) : Bool :=
  s == "NaN"

def is_pos_inf (s : String) : Bool :=
  s == "INF"

def is_neg_inf (s : String) : Bool :=
  s == "-INF"

def is_digits_start (c : Char) : Bool :=
  is_digit c

def is_digits_part (c : Char) : Bool :=
  is_digit c || c == '_'

end ZincGrammar

/-! ### A model of the Python `float` values the readers produce -/

/-- An exact rational as a numerator/denominator pair.  The arithmetic
below always normalizes (positive denominator, reduced by the gcd), so
equal values built by different routes are structurally equal. -/
structure QVal where
  num : Int
  den : Nat
  deriving DecidableEq, Repr

/-- Normalize a fraction (the denominator `0` case never arises at the
call sites: every divisor is a positive power of ten). -/
def qnorm (n : Int) (d : Nat) : QVal :=
  if d = 0 then ⟨0, 1⟩
  else
    let g := Nat.gcd n.natAbs d
    ⟨n / (g : Int), d / g⟩

def qOfNat (n : Nat) : QVal := ⟨(n : Int), 1⟩

def qadd (a b : QVal) : QVal :=
  qnorm (a.num * (b.den : Int) + b.num * (a.den : Int)) (a.den * b.den)

def qmul (a b : QVal) : QVal :=
  qnorm (a.num * b.num) (a.den * b.den)

def qdiv (a b : QVal) : QVal :=
  if b.num < 0 then qnorm (-(a.num * (b.den : Int))) (a.den * b.num.natAbs)
  else qnorm (a.num * (b.den : Int)) (a.den * b.num.natAbs)

/-- Value equality of fractions (cross multiplication). -/
def qeqb (a b : QVal) : Bool :=
  a.num * (b.den : Int) == b.num * (a.den : Int)

/-- Value comparison of fractions (denominators are non-negative). -/
def qle (a b : QVal) : Bool :=
  decide (a.num * (b.den : Int) ≤ b.num * (a.den : Int))

/-- Python floats, modelled as exact rationals plus the non-finite
values.  The decimal literals appearing in the verified properties are
all exactly representable doubles, for which rational arithmetic and
double arithmetic coincide. -/
inductive PFloat where
  | rat (q : QVal)
  | inf
  | negInf
  | nan
  deriving DecidableEq, Repr

/-- Python `==` on floats: `nan` is not equal to anything, including
itself. -/
def pyFloatEq : PFloat → PFloat → Bool
  | .rat a, .rat b => qeqb a b
  | .inf, .inf => true
  | .negInf, .negInf => true
  | _, _ => false

/-- Python `<=` on floats (`nan` compares false with everything). -/
def pyFloatLe : PFloat → PFloat → Bool
  | .rat a, .rat b => qle a b
  | .rat _, .inf => true
  | .negInf, .rat _ => true
  | .negInf, .inf => true
  | .inf, .inf => true
  | .negInf, .negInf => true
  | _, _ => false

/-! ### The value model (`src/ztypes.py`) -/

/-- `HNum`: a double together with an optional unit string.  The
`__post_init__` unit check is performed by the reader embedding. -/
structure HNum where
  val : PFloat
  unit : Option String := none
  deriving DecidableEq, Repr

/-- `HNum.__eq__`.  The source first short-circuits on `self is other`
(object identity); that test is explicit here as the `sameObject`
argument.  For the two separately constructed objects that the claims
compare, `sameObject` is `false`. -/
def hnumEq (sameObject : Bool) (a b : HNum) : Bool :=
  if sameObject then true else pyFloatEq a.val b.val

mutual
/-- The closed union of zinc values.  Dicts and grid metadata are
association lists in insertion order, exactly as a Python `dict`
iterates. -/
inductive HVal where
  | null
  | marker
  | remove
  | na
  | bool (b : Bool)
  | num (n : HNum)
  | str (s : String)
  | uri (s : String)
  | ref (val : String) (name : Option String)
  | symbol (s : String)
  | date (y m d : Nat)
  | time (h m s us : Nat)
  | datetime (iso : String)
  | coord (lat lon : PFloat)
  | xstr (type_ : String) (str_ : String)
  | bin (mime : String)
  | list (xs : List HVal)
  | dict (entries : List (String × HVal))
  | grid (g : HGrid)

/-- `HCol`: index, name and metadata of one column. -/
inductive HCol where
  | mk (index : Nat) (name : String) (meta : List (String × HVal))

/-- `HGrid`: metadata, columns and rows (`HRow` is a plain list of
cells). -/
inductive HGrid where
  | mk (meta : List (String × HVal)) (cols : List HCol)
      (rows : List (List HVal))
end

def HGrid.meta : HGrid → List (String × HVal)
  | .mk m _ _ => m

def HGrid.cols : HGrid → List HCol
  | .mk _ c _ => c

def HGrid.rows : HGrid → List (List HVal)
  | .mk _ _ r => r

/-- Assignment `d[k] = v` on a Python dict: overwrite in place if the
key exists, else append. -/
def dictSet (m : List (String × HVal)) (k : String) (v : HVal) :
    List (String × HVal) :=
  if m.any (fun p => p.1 == k) then
    m.map (fun p => if p.1 == k then (k, v) else p)
  else
    m ++ [(k, v)]

/-! ### The lexeme readers (`HZincReader` in `src/ztypes.py`) -/

/-- The error values the readers can produce.  `readException` is the
source's `HReader.ReadException`; `invalidAttribute` is
`HVal.InvalidAttributeError` raised by `__post_init__` checks;
`valueErr` and `indexErr` are the built-in Python `ValueError` and
`IndexError` that escape the readers on malformed input. -/
inductive ReadErr where
  | readException (msg : String)
  | invalidAttribute (msg : String)
  | valueErr
  | indexErr
  deriving DecidableEq, Repr

namespace HZincReader

open ZincGrammar

def read_bool (s : String) : Except ReadErr Bool :=
  match s with
  | "T" => .ok true
  | "F" => .ok false
  | _ => .error (.readException "Invalid boolean expected T or F")

def hexDigitVal (c : Char) : Option Nat :=
  if '0'.toNat ≤ c.toNat && c.toNat ≤ '9'.toNat then some (c.toNat - '0'.toNat)
  else if 'a'.toNat ≤ c.toNat && c.toNat ≤ 'f'.toNat then some (c.toNat - 'a'.toNat + 10)
  else if 'A'.toNat ≤ c.toNat && c.toNat ≤ 'F'.toNat then some (c.toNat - 'A'.toNat + 10)
  else none

/-- `int(seq, 16)` on the (up to four) character slice of a `\u` escape. -/
def hexOfChars (l : List Char) : Option Nat :=
  l.foldlM (fun acc c => (hexDigitVal c).map (fun v => acc * 16 + v)) 0

/-- The scanning loop of `read_str`, over the characters after the
opening quote.  Indices of the source become list positions: at a
backslash at index `i`, the source's bound check `i + 4 >= len(s)`
("Unicode sequence too short") fires when fewer than three characters
follow the `u`; with exactly three, the slice `s[i+2:i+6]` is parsed
as hex but the index then jumps past the end of the string and the
final `end` check reports an unterminated string. -/
def readStrLoop (l : List Char) : Except ReadErr (List Char) :=
  match l with
  | [] => .error (.readException "STR not terminated properly.")
  | '"' :: _ => .ok []
  | '\\' :: rest =>
    match rest with
    | 'b' :: r2 => (readStrLoop r2).map (fun t => '\x08' :: t)
    | 'f' :: r2 => (readStrLoop r2).map (fun t => '\x0C' :: t)
    | 'n' :: r2 => (readStrLoop r2).map (fun t => '\n' :: t)
    | 'r' :: r2 => (readStrLoop r2).map (fun t => '\x0D' :: t)
    | 't' :: r2 => (readStrLoop r2).map (fun t => '\t' :: t)
    | '\\' :: r2 => (readStrLoop r2).map (fun t => '\\' :: t)
    | '$' :: r2 => (readStrLoop r2).map (fun t => '$' :: t)
    | '"' :: r2 => (readStrLoop r2).map (fun t => '"' :: t)
    | 'u' :: r2 =>
      match r2 with
      | h1 :: h2 :: h3 :: h4 :: rest4 =>
        match hexOfChars [h1, h2, h3, h4] with
        | none => .error .valueErr
        | some v => (readStrLoop rest4).map (fun t => Char.ofNat v :: t)
      | [h1, h2, h3] =>
        match hexOfChars [h1, h2, h3] with
        | none => .error .valueErr
        | some _ => .error (.readException "STR not terminated properly.")
      | _ => .error (.readException "Unicode sequence too short.")
    | _ => .error (.readException "Invalid escaped char")
  | c :: rest => (readStrLoop rest).map (fun t => c :: t)

/-- `read_str`: decode a double-quoted lexeme.  Note that, as in the
source, nothing after the closing quote is inspected. -/
def read_str (s : String) : Except ReadErr String :=
  if s.length < 2 then .error (.readException "Valid STR cannot be less than two chars.")
  else
    match s.data with
    | '"' :: rest => (readStrLoop rest).map String.mk
    | _ => .error (.readException "Missing quote at start of STR")

/-- The escape set tested by `read_uri` (it does not include the
backtick, which has its own branch). -/
def uriReaderEscapes : List Char :=
  [':', '/', '?', '#', '[', ']', '@', '\\', '&', '=', ';']

/-- The scanning loop of `read_uri`: on a regular escape the backslash
is kept, on an escaped backtick it is dropped; after the closing
backtick nothing may remain. -/
def readUriLoop (l : List Char) : Except ReadErr (List Char) :=
  match l with
  | [] => .error (.readException "URI not terminated properly.")
  | c :: rest =>
    if c == uriTick then
      if rest.isEmpty then .ok []
      else .error (.readException "Jibberish after URI")
    else if c == '\\' then
      match rest with
      | [] => .error (.readException "Invalid escaped char")
      | p :: r2 =>
        if uriReaderEscapes.contains p then
          (readUriLoop r2).map (fun t => '\\' :: p :: t)
        else if p == uriTick then
          (readUriLoop r2).map (fun t => p :: t)
        else .error (.readException "Invalid escaped char")
    else
      (readUriLoop rest).map (fun t => c :: t)

def read_uri (s : String) : Except ReadErr String :=
  if s.length < 2 then .error (.readException "Valid URI cannot be less than two chars.")
  else
    match s.data with
    | c :: rest =>
      if c == uriTick then (readUriLoop rest).map String.mk
      else .error (.readException "Missing tick at start of URI")
    | [] => .error (.readException "Missing tick at start of URI")

/-- `float`/`int` digit-string parsing restricted to the `[0-9_]` runs
`read_num` slices out: underscores are allowed only between digits
(otherwise Python raises `ValueError`). -/
def pyParseDigitsAux (acc : Nat) : List Char → Option Nat
  | [] => some acc
  | '_' :: d :: rest =>
    if is_digit d then pyParseDigitsAux (acc * 10 + (d.toNat - '0'.toNat)) rest else none
  | '_' :: [] => none
  | d :: rest =>
    if is_digit d then pyParseDigitsAux (acc * 10 + (d.toNat - '0'.toNat)) rest else none

def pyParseDigits : List Char → Option Nat
  | [] => none
  | d :: rest =>
    if is_digit d then pyParseDigitsAux (d.toNat - '0'.toNat) rest else none

/-- `read_num`: parse `[-] digits [. digits] [eE [+-] digits] [unit]`
where every digit run may contain `_` separators, then build the
`HNum`.  The final constructor's `__post_init__` unit check is the last
guard. -/
def read_num (s : String) : Except ReadErr HNum :=
  if is_nan s then .ok ⟨.nan, none⟩
  else if is_pos_inf s then .ok ⟨.inf, none⟩
  else if is_neg_inf s then .ok ⟨.negInf, none⟩
  else
    match s.data with
    | [] => .error .indexErr
    | l =>
      let neg : Bool := l.head? == some '-'
      let l1 : List Char := if neg then l.tail else l
      match l1 with
      | [] => .error .indexErr
      | c :: _ =>
        if ¬ is_digits_start c then .error (.readException "Expected digits")
        else
          -- the first character is a digit, so the whole integer run is
          -- the maximal `is_digits_part` prefix
          let digitsChunk := l1.takeWhile is_digits_part
          let r1 := l1.dropWhile is_digits_part
          -- decimals
          let decStep : Except ReadErr (Option (List Char) × List Char) :=
            match r1 with
            | '.' :: r2 =>
              match r2 with
              | [] => .error (.readException "Expected decimals after the comma")
              | d :: _ =>
                if ¬ is_digits_start d then
                  .error (.readException "Expected decimals after the comma")
                else
                  .ok (some (r2.takeWhile is_digits_part), r2.dropWhile is_digits_part)
            | _ => .ok (none, r1)
          match decStep with
          | .error e => .error e
          | .ok (decimalsChunk, r3) =>
            -- exponent
            let expStep : Except ReadErr (Option (Bool × List Char) × List Char) :=
              match r3 with
              | e :: x :: r4 =>
                if (e == 'e' || e == 'E') && (x == '-' || x == '+' || is_digit x) then
                  let (negExp, r5) : Bool × List Char :=
                    if x == '+' then (false, r4)
                    else if x == '-' then (true, r4)
                    else (false, x :: r4)
                  match r5 with
                  | [] => .error (.readException "Invalid exponent, expected decimals.")
                  | d :: _ =>
                    if ¬ is_digits_start d then
                      .error (.readException "Invalid exponent, expected decimals.")
                    else
                      .ok (some (negExp, r5.takeWhile is_digits_part),
                           r5.dropWhile is_digits_part)
                else .ok (none, r3)
              | _ => .ok (none, r3)
            match expStep with
            | .error e => .error e
            | .ok (expPart, r6) =>
              -- unit
              let unitChunk := r6.takeWhile is_unit_char
              let r7 := r6.dropWhile is_unit_char
              let unit : Option String :=
                if unitChunk.isEmpty then none else some (String.mk unitChunk)
              if ¬ r7.isEmpty then .error (.readException "Jibberish after number")
              else
                match pyParseDigits digitsChunk with
                | none => .error .valueErr
                | some digitsVal =>
                  let sign : QVal := if neg then ⟨-1, 1⟩ else ⟨1, 1⟩
                  let base : QVal := qmul sign (qOfNat digitsVal)
                  let withDec : Except ReadErr QVal :=
                    match decimalsChunk with
                    | none => .ok base
                    | some dc =>
                      match pyParseDigits dc with
                      | none => .error .valueErr
                      | some dv =>
                        -- the scale is 10 ** len(decimals) with the raw
                        -- slice length, underscores included
                        .ok (qadd base (qmul sign (qdiv (qOfNat dv) (qOfNat (10 ^ dc.length)))))
                  match withDec with
                  | .error e => .error e
                  | .ok n1 =>
                    let withExp : Except ReadErr QVal :=
                      match expPart with
                      | none => .ok n1
                      | some (negExp, ec) =>
                        match pyParseDigits ec with
                        | none => .error .valueErr
                        | some ev =>
                          .ok (if negExp then qdiv n1 (qOfNat (10 ^ ev))
                               else qmul n1 (qOfNat (10 ^ ev)))
                    match withExp with
                    | .error e => .error e
                    | .ok n2 =>
                      -- `HNum.__post_init__` validates the unit
                      match unit with
                      | some u =>
                        if ¬ is_unit u then .error (.invalidAttribute "Invalid unit")
                        else .ok ⟨.rat n2, unit⟩
                      | none => .ok ⟨.rat n2, unit⟩

def read_symbol (s : String) : Except ReadErr String :=
  if s.length < 2 then
    .error (.readException "Symbol length should be at least two characters.")
  else
    match s.data with
    | c :: rest =>
      if ¬ is_symbol_start c then .error (.readException "Symbol start is not valid.")
      else if rest.all is_symbol_part then .ok (String.mk rest)
      else .error (.readException "Invalid symbol")
    | [] => .error (.readException "Symbol start is not valid.")

/-- The validation loop of `read_ref`: a ref-end character (a space) is
only allowed as the very last character. -/
def readRefLoop : List Char → Except ReadErr Unit
  | [] => .ok ()
  | c :: rest =>
    if is_ref_end c then
      if rest.isEmpty then .ok () else .error (.readException "Ref is not valid.")
    else if ¬ is_ref_part c then .error (.readException "Invalid ref")
    else readRefLoop rest

/-- `read_ref` returns everything after the leading `@` — including,
as in the source, a trailing space that the lexer put in the lexeme. -/
def read_ref (s : String) : Except ReadErr String :=
  if s.length < 2 then
    .error (.readException "Ref length should be at least two characters.")
  else
    match s.data with
    | c :: rest =>
      if ¬ is_ref_start c then .error (.readException "Ref start is not valid.")
      else (readRefLoop rest).map (fun _ => String.mk rest)
    | [] => .error (.readException "Ref start is not valid.")

def digitChars (l : List Char) : Option Nat :=
  if l ≠ [] ∧ l.all is_digit then
    some (l.foldl (fun acc c => acc * 10 + (c.toNat - '0'.toNat)) 0)
  else none

/-- `date.fromisoformat`, modelled for the canonical `YYYY-MM-DD`
shape (a dependency of the source; no verified property exercises it —
the full Gregorian day-of-month validation is elided). -/
def read_date (s : String) : Except ReadErr (Nat × Nat × Nat) :=
  match s.data with
  | [y1, y2, y3, y4, '-', m1, m2, '-', d1, d2] =>
    match digitChars [y1, y2, y3, y4], digitChars [m1, m2], digitChars [d1, d2] with
    | some y, some m, some d =>
      if 1 ≤ m ∧ m ≤ 12 ∧ 1 ≤ d ∧ d ≤ 31 then .ok (y, m, d) else .error .valueErr
    | _, _, _ => .error .valueErr
  | _ => .error .valueErr

/-- `time.fromisoformat`, modelled for the canonical
`HH:MM:SS[.ffffff]` shape (dependency; no verified property exercises
it). -/
def read_time (s : String) : Except ReadErr (Nat × Nat × Nat × Nat) :=
  match s.data with
  | [h1, h2, ':', m1, m2, ':', s1, s2] =>
    match digitChars [h1, h2], digitChars [m1, m2], digitChars [s1, s2] with
    | some h, some m, some sec =>
      if h ≤ 23 ∧ m ≤ 59 ∧ sec ≤ 59 then .ok (h, m, sec, 0) else .error .valueErr
    | _, _, _ => .error .valueErr
  | h1 :: h2 :: ':' :: m1 :: m2 :: ':' :: s1 :: s2 :: '.' :: frac =>
    match digitChars [h1, h2], digitChars [m1, m2], digitChars [s1, s2],
        digitChars frac with
    | some h, some m, some sec, some f =>
      if h ≤ 23 ∧ m ≤ 59 ∧ sec ≤ 59 ∧ frac.length ≤ 6 then
        .ok (h, m, sec, f * 10 ^ (6 - frac.length))
      else .error .valueErr
    | _, _, _, _ => .error .valueErr
  | _ => .error .valueErr

/-- `read_date_time` truncates the lexeme at the first space (dropping
the zone name) and hands the prefix to `datetime.fromisoformat`; the
latter is a dependency modelled as carrying the ISO text (no verified
property exercises datetime parsing). -/
def read_date_time (s : String) : Except ReadErr String :=
  match s.data.findIdx? (fun c => c == ' ') with
  | some idx => .ok (String.mk (s.data.take idx))
  | none => .ok s

end HZincReader

/-! ### Token model (`src/zinc/token.py`) -/

inductive ZincTokenType where
  | KEYWORD | IDENTIFIER | SYMBOL | REF | STR | DATE | DATETIME | TIME
  | URI | NUMBER | GRID_START | GRID_END | BOOL
  | LPAREN | RPAREN | LBRACKET | RBRACKET | LBRACE | RBRACE
  | COLON | COMMA | LINEFEED
  deriving DecidableEq, Repr

/-- A token: kind and raw lexeme. -/
structure ZincToken where
  t : ZincTokenType
  s : String
  deriving DecidableEq, Repr

/-! ### The lexer (`src/zinc/lexer.py`) -/

namespace ZincLexer

open ZincGrammar

/-- Lexer errors; `fuel` marks fuel exhaustion of the embedding (never
reached at the fuel amounts the theorems use). -/
inductive LexErr where
  | lexical (msg : String)
  | fuel
  deriving DecidableEq, Repr

/-- The lexer context: one-character lookahead over the remaining
character stream. -/
structure LexCtx where
  current : Option Char
  peek : Option Char
  rest : List Char
  deriving Repr

def LexCtx.make (cs : List Char) : LexCtx :=
  { current := cs.head?, peek := cs.tail.head?, rest := cs.tail.tail }

/-- `Context.next`: shift the lookahead window one character. -/
def LexCtx.next (ctx : LexCtx) : LexCtx :=
  { current := ctx.peek, peek := ctx.rest.head?, rest := ctx.rest.tail }

/-- `Context.consume` with a `segments` accumulator (all call sites in
the source pass one, except inside `vomit_whitespace`). -/
def LexCtx.consume (ctx : LexCtx) (tester : Option (Char → Bool)) (segs : List Char) :
    Except LexErr (List Char × LexCtx) :=
  match ctx.current with
  | none => .error (.lexical "Unexpected end")
  | some c =>
    match tester with
    | some t =>
      if ¬ t c then .error (.lexical "Unexpected character")
      else .ok (segs ++ [c], ctx.next)
    | none => .ok (segs ++ [c], ctx.next)

/-- `Context.consume_if` with a `segments` accumulator. -/
def LexCtx.consume_if (ctx : LexCtx) (t : Char → Bool) (segs : List Char) :
    Bool × List Char × LexCtx :=
  match ctx.current with
  | none => (false, segs, ctx)
  | some c =>
    if ¬ t c then (false, segs, ctx) else (true, segs ++ [c], ctx.next)

/-- `vomit_whitespace`: `while consume_if(is_whitespace)` (no
accumulator at this call site). -/
def vomit_whitespace : Nat → LexCtx → Except LexErr LexCtx
  | 0, _ => .error .fuel
  | fuel + 1, ctx =>
    match ctx.current with
    | none => .ok ctx
    | some c =>
      if is_whitespace c then vomit_whitespace fuel ctx.next else .ok ctx

/-- `while consume_if(tester, segments)` — the body of the identifier,
keyword, symbol and ref scanners. -/
def consumeWhile : Nat → (Char → Bool) → List Char → LexCtx →
    Except LexErr (List Char × LexCtx)
  | 0, _, _, _ => .error .fuel
  | fuel + 1, t, segs, ctx =>
    let (took, segs1, ctx1) := ctx.consume_if t segs
    if took then consumeWhile fuel t segs1 ctx1 else .ok (segs1, ctx1)

def consume_identifier (fuel : Nat) (segs : List Char) (ctx : LexCtx) :
    Except LexErr (ZincTokenType × List Char × LexCtx) :=
  (consumeWhile fuel is_id_part segs ctx).map (fun (s, c) => (.IDENTIFIER, s, c))

/-- `_consume_keyword` — NOTE: the source returns `KEYWORD`
unconditionally; there is no post-processing of the lexeme to `NUMBER`
(for `NaN`/`INF`) or `BOOL` (for `T`/`F`) anywhere in
`src/zinc/lexer.py`. -/
def consume_keyword (fuel : Nat) (segs : List Char) (ctx : LexCtx) :
    Except LexErr (ZincTokenType × List Char × LexCtx) :=
  (consumeWhile fuel is_keyword_part segs ctx).map (fun (s, c) => (.KEYWORD, s, c))

def consume_symbol (fuel : Nat) (segs : List Char) (ctx : LexCtx) :
    Except LexErr (ZincTokenType × List Char × LexCtx) :=
  (consumeWhile fuel is_symbol_part segs ctx).map (fun (s, c) => (.SYMBOL, s, c))

/-- `_consume_ref` — after the `is_ref_part` run the source executes
`consume_if(is_ref_end, segments)`: a trailing space IS consumed into
the lexeme. -/
def consume_ref (fuel : Nat) (segs : List Char) (ctx : LexCtx) :
    Except LexErr (ZincTokenType × List Char × LexCtx) := do
  let (segs1, ctx1) ← consumeWhile fuel is_ref_part segs ctx
  let (_, segs2, ctx2) := ctx1.consume_if is_ref_end segs1
  return (.REF, segs2, ctx2)

def consume_str : Nat → List Char → LexCtx →
    Except LexErr (ZincTokenType × List Char × LexCtx)
  | 0, _, _ => .error .fuel
  | fuel + 1, segs, ctx =>
    match ctx.current with
    | none => .error (.lexical "String not terminated")
    | some _ =>
      let (tookEsc, segsE, ctxE) := ctx.consume_if is_str_escape segs
      if tookEsc then
        let (tookEc, segsC, ctxC) := ctxE.consume_if is_str_escaped_char segsE
        if tookEc then consume_str fuel segsC ctxC
        else
          let (tookU, segsU, ctxU) := ctxE.consume_if is_str_escped_uni segsE
          if tookU then do
            let (s1, c1) ← ctxU.consume (some is_hex_digit) segsU
            let (s2, c2) ← c1.consume (some is_hex_digit) s1
            let (s3, c3) ← c2.consume (some is_hex_digit) s2
            let (s4, c4) ← c3.consume (some is_hex_digit) s3
            consume_str fuel s4 c4
          else .error (.lexical "Expected escaped character.")
      else
        let (tookEnd, segsD, ctxD) := ctx.consume_if is_str_end segs
        if tookEnd then .ok (.STR, segsD, ctxD)
        else
          let (tookUc, segsUc, ctxUc) := ctx.consume_if is_unicode_char segs
          if tookUc then consume_str fuel segsUc ctxUc
          else .error (.lexical "Invalid character in string")

def consume_uri : Nat → List Char → LexCtx →
    Except LexErr (ZincTokenType × List Char × LexCtx)
  | 0, _, _ => .error .fuel
  | fuel + 1, segs, ctx =>
    match ctx.current with
    | none => .error (.lexical "URI not terminated")
    | some _ =>
      let (tookEsc, segsE, ctxE) := ctx.consume_if is_uri_escape segs
      if tookEsc then
        let (tookEc, segsC, ctxC) := ctxE.consume_if is_uri_escaped_char segsE
        if tookEc then consume_uri fuel segsC ctxC
        else
          let (tookU, segsU, ctxU) := ctxE.consume_if is_uri_escaped_uni segsE
          if tookU then do
            let (s1, c1) ← ctxU.consume (some is_hex_digit) segsU
            let (s2, c2) ← c1.consume (some is_hex_digit) s1
            let (s3, c3) ← c2.consume (some is_hex_digit) s2
            let (s4, c4) ← c3.consume (some is_hex_digit) s3
            consume_uri fuel s4 c4
          else .error (.lexical "Expected escaped character.")
      else
        let (tookEnd, segsD, ctxD) := ctx.consume_if is_uri_end segs
        if tookEnd then .ok (.URI, segsD, ctxD)
        else
          let (tookUc, segsUc, ctxUc) := ctx.consume_if is_unicode_char segs
          if tookUc then consume_uri fuel segsUc ctxUc
          else .error (.lexical "Invalid character in URI")

/-- The final classification of `_consume_number`. -/
def numberKind (dashes colons : Nat) : ZincTokenType :=
  if dashes == 2 && colons == 0 then .DATE
  else if dashes == 0 && colons > 1 then .TIME
  else if dashes > 2 then .DATETIME
  else .NUMBER

/-- `_consume_number`: the scan loop with its `colons`, `dashes`,
`unit_found` and `exp` counters. -/
def consume_number : Nat → Nat → Nat → Bool → Bool → List Char → LexCtx →
    Except LexErr (ZincTokenType × List Char × LexCtx)
  | 0, _, _, _, _, _, _ => .error .fuel
  | fuel + 1, colons, dashes, unitFound, exp, segs, ctx =>
    match ctx.current with
    | none => .ok (numberKind dashes colons, segs, ctx)
    | some c =>
      if is_digit c then do
        let (s1, c1) ← ctx.consume none segs
        consume_number fuel colons dashes unitFound exp s1 c1
      else if exp && (c == '+' || c == '-') then do
        let (s1, c1) ← ctx.consume none segs
        consume_number fuel colons dashes unitFound exp s1 c1
      else if c == '-' then do
        let (s1, c1) ← ctx.consume none segs
        consume_number fuel colons (dashes + 1) unitFound exp s1 c1
      else if c == ':' && (match ctx.peek with | some p => is_digit p | none => false) then do
        let (s1, c1) ← ctx.consume none segs
        consume_number fuel (colons + 1) dashes unitFound exp s1 c1
      else if (exp || colons ≥ 1) && c == '+' then do
        let (s1, c1) ← ctx.consume none segs
        consume_number fuel colons dashes unitFound exp s1 c1
      else if c == '.' then
        match ctx.peek with
        | none => .ok (numberKind dashes colons, segs, ctx)
        | some p =>
          if ¬ is_digit p then .ok (numberKind dashes colons, segs, ctx)
          else do
            let (s1, c1) ← ctx.consume none segs
            consume_number fuel colons dashes unitFound exp s1 c1
      else if (c == 'e' || c == 'E')
          && (match ctx.peek with
              | some p => p == '-' || p == '+' || is_digit p
              | none => false) then do
        let (s1, c1) ← ctx.consume none segs
        consume_number fuel colons dashes unitFound true s1 c1
      else if is_alpha c || c == '%' || c == '$' || c == '/' || c.toNat > 128 then do
        let (s1, c1) ← ctx.consume none segs
        consume_number fuel colons dashes true exp s1 c1
      else if c == '_' then
        -- the source tests `unit_found and is_digit(current)` here with
        -- `current == '_'`, so the first alternative is never taken
        if unitFound && is_digit c then do
          let (s1, c1) ← ctx.consume none segs
          consume_number fuel colons dashes unitFound exp s1 c1
        else do
          let (s1, c1) ← ctx.consume none segs
          consume_number fuel colons dashes true exp s1 c1
      else .ok (numberKind dashes colons, segs, ctx)

/-- `_TRIVIAL_TOKEN_TABLE`. -/
def trivialTokenTable (c : Char) : Option ZincTokenType :=
  if c == '(' then some .LPAREN
  else if c == ')' then some .RPAREN
  else if c == '[' then some .LBRACKET
  else if c == ']' then some .RBRACKET
  else if c == '{' then some .LBRACE
  else if c == '}' then some .RBRACE
  else if c == ':' then some .COLON
  else if c == ',' then some .COMMA
  else if c == '\n' then some .LINEFEED
  else none

/-- The dispatch body of `tokenize`, producing the recognised token
list.  The `">" ">"` digraph yields `GRID_START`, exactly as the source
does (`token_type = ZincTokenType.GRID_START` in both digraph
branches). -/
def tokenizeLoop : Nat → LexCtx → Except LexErr (List ZincToken)
  | 0, _ => .error .fuel
  | fuel + 1, ctx0 =>
    match ctx0.current with
    | none => .ok []
    | some _ => do
      let ctx ← vomit_whitespace (fuel + 1) ctx0
      match ctx.current with
      | none => .ok []
      | some cur => do
        let emit : ZincTokenType → List Char → LexCtx → Except LexErr (List ZincToken) :=
          fun tt segs ctx2 => do
            let restToks ← tokenizeLoop fuel ctx2
            return ZincToken.mk tt (String.mk segs) :: restToks
        let (tookId, segsA, ctxA) := ctx.consume_if is_id_start []
        if tookId then do
          let (tt, segs1, ctx1) ← consume_identifier fuel segsA ctxA
          emit tt segs1 ctx1
        else
          let (tookKw, segsB, ctxB) := ctx.consume_if is_keyword_start []
          if tookKw then do
            let (tt, segs1, ctx1) ← consume_keyword fuel segsB ctxB
            emit tt segs1 ctx1
          else
            let (tookSym, segsC, ctxC) := ctx.consume_if is_symbol_start []
            if tookSym then do
              let (tt, segs1, ctx1) ← consume_symbol fuel segsC ctxC
              emit tt segs1 ctx1
            else
              let (tookRef, segsD, ctxD) := ctx.consume_if is_ref_start []
              if tookRef then do
                let (tt, segs1, ctx1) ← consume_ref fuel segsD ctxD
                emit tt segs1 ctx1
              else
                let (tookStr, segsE, ctxE) := ctx.consume_if is_str_start []
                if tookStr then do
                  let (tt, segs1, ctx1) ← consume_str fuel segsE ctxE
                  emit tt segs1 ctx1
                else
                  let (tookUri, segsF, ctxF) := ctx.consume_if is_uri_start []
                  if tookUri then do
                    let (tt, segs1, ctx1) ← consume_uri fuel segsF ctxF
                    emit tt segs1 ctx1
                  else
                    let (tookNum, segsG, ctxG) := ctx.consume_if is_number_start []
                    if tookNum then do
                      let (tt, segs1, ctx1) ← consume_number fuel 0 0 false false segsG ctxG
                      emit tt segs1 ctx1
                    else if ctx.current == some '<' && ctx.peek == some '<' then do
                      let (s1, c1) ← ctx.consume none []
                      let (s2, c2) ← c1.consume none s1
                      emit .GRID_START s2 c2
                    else if ctx.current == some '>' && ctx.peek == some '>' then do
                      let (s1, c1) ← ctx.consume none []
                      let (s2, c2) ← c1.consume none s1
                      emit .GRID_START s2 c2
                    else
                      match trivialTokenTable cur with
                      | some tt => do
                        let (s1, c1) ← ctx.consume none []
                        emit tt s1 c1
                      | none => do
                        let _ ← ctx.consume none []
                        .error (.lexical "Unexpected char")

/-- Tokenize a whole in-memory document (the chunked character stream
of the source delivers exactly the characters of the string, in
order). -/
def tokenizeString (s : String) : Except LexErr (List ZincToken) :=
  tokenizeLoop (4 * s.data.length + 16) (LexCtx.make s.data)

end ZincLexer

/-! ### The parser (`src/zinc/parser.py`) -/

namespace ZincParser

open HZincReader

/-- Parser errors: `assemble` is `ZincParser.AssembleError`; `reader`
wraps an exception escaping a lexeme reader; `fuel` marks fuel
exhaustion of the embedding. -/
inductive ParseErr where
  | assemble (msg : String)
  | reader (e : ReadErr)
  | fuel
  deriving DecidableEq, Repr

/-- The parser context: one-token lookahead over the remaining token
stream. -/
structure PCtx where
  cur : Option ZincToken
  peek : Option ZincToken
  rest : List ZincToken
  deriving Repr

def PCtx.make (ts : List ZincToken) : PCtx :=
  { cur := ts.head?, peek := ts.tail.head?, rest := ts.tail.tail }

def PCtx.next (ctx : PCtx) : PCtx :=
  { cur := ctx.peek, peek := ctx.rest.head?, rest := ctx.rest.tail }

/-- `Context.consume_if`: returns the lexeme when the current token has
the requested kind (and lexeme, when given), advancing past it. -/
def PCtx.consume_if (ctx : PCtx) (t : ZincTokenType) (v : Option String := none) :
    Option String × PCtx :=
  match ctx.cur with
  | none => (none, ctx)
  | some tok =>
    if tok.t ≠ t then (none, ctx)
    else
      match v with
      | some want => if tok.s ≠ want then (none, ctx) else (some tok.s, ctx.next)
      | none => (some tok.s, ctx.next)

def PCtx.current_is (ctx : PCtx) (t : ZincTokenType) (v : Option String := none) : Bool :=
  match ctx.cur with
  | none => false
  | some tok =>
    if tok.t ≠ t then false
    else
      match v with
      | some want => tok.s == want
      | none => true

/-- `Context.consume`: like `consume_if` but failing loudly. -/
def PCtx.consume (ctx : PCtx) (t : ZincTokenType) (v : Option String := none) :
    Except ParseErr (String × PCtx) :=
  match ctx.cur with
  | none => .error (.assemble "Unexpected end")
  | some tok =>
    if tok.t ≠ t then .error (.assemble "Unexpected token kind")
    else
      match v with
      | some want =>
        if tok.s ≠ want then .error (.assemble "Unexpected token text")
        else .ok (tok.s, ctx.next)
      | none => .ok (tok.s, ctx.next)

/-- Lift a reader exception into the parser's error type. -/
def liftR : Except ReadErr α → Except ParseErr α
  | .ok a => .ok a
  | .error e => .error (.reader e)

def parse_ref (ctx : PCtx) : Except ParseErr (HVal × PCtx) := do
  let (s, ctx1) ← ctx.consume .REF
  let r ← liftR (read_ref s)
  if ¬ ctx1.current_is .STR then return (.ref r none, ctx1)
  else do
    let (ns, ctx2) ← ctx1.consume .STR
    let n ← liftR (read_str ns)
    return (.ref r (some n), ctx2)

def parse_symbol (ctx : PCtx) : Except ParseErr (HVal × PCtx) := do
  let (s, ctx1) ← ctx.consume .SYMBOL
  let v ← liftR (read_symbol s)
  return (.symbol v, ctx1)

def parse_bool (ctx : PCtx) : Except ParseErr (HVal × PCtx) := do
  let (s, ctx1) ← ctx.consume .BOOL
  let v ← liftR (read_bool s)
  return (.bool v, ctx1)

def parse_uri (ctx : PCtx) : Except ParseErr (HVal × PCtx) := do
  let (s, ctx1) ← ctx.consume .URI
  let v ← liftR (read_uri s)
  return (.uri v, ctx1)

def parse_str (ctx : PCtx) : Except ParseErr (HVal × PCtx) := do
  let (s, ctx1) ← ctx.consume .STR
  let v ← liftR (read_str s)
  return (.str v, ctx1)

def parse_num (ctx : PCtx) : Except ParseErr (HVal × PCtx) := do
  let (s, ctx1) ← ctx.consume .NUMBER
  let v ← liftR (read_num s)
  return (.num v, ctx1)

def parse_date (ctx : PCtx) : Except ParseErr (HVal × PCtx) := do
  let (s, ctx1) ← ctx.consume .DATE
  let (y, m, d) ← liftR (read_date s)
  return (.date y m d, ctx1)

def parse_time (ctx : PCtx) : Except ParseErr (HVal × PCtx) := do
  let (s, ctx1) ← ctx.consume .TIME
  let (h, m, sec, us) ← liftR (read_time s)
  return (.time h m sec us, ctx1)

def parse_date_time (ctx : PCtx) : Except ParseErr (HVal × PCtx) := do
  let (s, ctx1) ← ctx.consume .DATETIME
  let v ← liftR (read_date_time s)
  return (.datetime v, ctx1)

def parse_null (ctx : PCtx) : Except ParseErr (HVal × PCtx) := do
  let (_, ctx1) ← ctx.consume .KEYWORD (some "N")
  return (.null, ctx1)

def parse_marker (ctx : PCtx) : Except ParseErr (HVal × PCtx) := do
  let (_, ctx1) ← ctx.consume .KEYWORD (some "M")
  return (.marker, ctx1)

def parse_remove (ctx : PCtx) : Except ParseErr (HVal × PCtx) := do
  let (_, ctx1) ← ctx.consume .KEYWORD (some "R")
  return (.remove, ctx1)

def parse_na (ctx : PCtx) : Except ParseErr (HVal × PCtx) := do
  let (_, ctx1) ← ctx.consume .KEYWORD (some "NA")
  return (.na, ctx1)

/-- `HCoord.make` with the `__post_init__` range checks. -/
def mkCoord (lat lon : PFloat) : Except ParseErr HVal :=
  if ¬ (pyFloatLe (.rat ⟨-90, 1⟩) lat && pyFloatLe lat (.rat ⟨90, 1⟩)) then
    .error (.reader (.invalidAttribute "Latitude out of range"))
  else if ¬ (pyFloatLe (.rat ⟨-180, 1⟩) lon && pyFloatLe lon (.rat ⟨180, 1⟩)) then
    .error (.reader (.invalidAttribute "Longitude out of range"))
  else .ok (.coord lat lon)

def parse_coord (ctx : PCtx) : Except ParseErr (HVal × PCtx) := do
  let (_, ctx1) ← ctx.consume .KEYWORD (some "C")
  let (_, ctx2) ← ctx1.consume .LPAREN
  let (s1, ctx3) ← ctx2.consume .NUMBER
  let lat ← liftR (read_num s1)
  let (_, ctx4) ← ctx3.consume .COLON
  let (s2, ctx5) ← ctx4.consume .NUMBER
  let lon ← liftR (read_num s2)
  let (_, ctx6) ← ctx5.consume .RPAREN
  let v ← mkCoord lat.val lon.val
  return (v, ctx6)

def parse_xstr (ctx : PCtx) : Except ParseErr (HVal × PCtx) := do
  let (type_, ctx1) ← ctx.consume .KEYWORD
  let (_, ctx2) ← ctx1.consume .LPAREN
  let (s, ctx3) ← ctx2.consume .STR
  let str_ ← liftR (read_str s)
  let (_, ctx4) ← ctx3.consume .RPAREN
  return (.xstr type_ str_, ctx4)

def parse_bin (ctx : PCtx) : Except ParseErr (HVal × PCtx) := do
  let (_, ctx1) ← ctx.consume .KEYWORD (some "Bin")
  let (_, ctx2) ← ctx1.consume .LPAREN
  let (s, ctx3) ← ctx2.consume .STR
  let mime ← liftR (read_str s)
  let (_, ctx4) ← ctx3.consume .RPAREN
  return (.bin mime, ctx4)

def parse_grid_ver (ctx : PCtx) : Except ParseErr (String × PCtx) := do
  let (_, ctx1) ← ctx.consume .IDENTIFIER (some "ver")
  let (_, ctx2) ← ctx1.consume .COLON
  let (s, ctx3) ← ctx2.consume .STR
  let v ← liftR (read_str s)
  return (v, ctx3)

/-! The source's parse functions are mutually recursive through
`parse_literal`.  To keep the embedding definitionally computable (a
Lean `mutual` block compiles through well-founded recursion, which does
not reduce), each function below takes the literal parser as the
argument `lit`, and the knot is tied in `parse_literal` by structural
recursion on the fuel. -/

/-- A literal parser, as passed around the combinators below. -/
abbrev LitParser := PCtx → Except ParseErr (HVal × PCtx)

def parse_tag (lit : LitParser) (ctx : PCtx) :
    Except ParseErr ((String × HVal) × PCtx) := do
  let (id_, ctx1) ← ctx.consume .IDENTIFIER
  let (colon, ctx2) := ctx1.consume_if .COLON
  if colon.isNone then return ((id_, .marker), ctx2)
  else do
    let (v, ctx3) ← lit ctx2
    return ((id_, v), ctx3)

/-- The loop of `parse_tags`: tags accumulate into a dict; a comma
after a tag is consumed only when `allow_comma` is set. -/
def parse_tags_loop (lit : LitParser) : Nat → Bool → List (String × HVal) → PCtx →
    Except ParseErr (List (String × HVal) × PCtx)
  | 0, _, _, _ => .error .fuel
  | fuel + 1, allowComma, tags, ctx =>
    if ctx.current_is .IDENTIFIER then
      match parse_tag lit ctx with
      | .error e => .error e
      | .ok ((id_, v), ctx1) =>
        let tags1 := dictSet tags id_ v
        let ctx2 := if allowComma then (ctx1.consume_if .COMMA).2 else ctx1
        parse_tags_loop lit fuel allowComma tags1 ctx2
    else .ok (tags, ctx)

def parse_dict (lit : LitParser) (fuel : Nat) (ctx : PCtx) :
    Except ParseErr (HVal × PCtx) := do
  let (_, ctx1) ← ctx.consume .LBRACE
  let (tags, ctx2) ← parse_tags_loop lit fuel true [] ctx1
  let (_, ctx3) ← ctx2.consume .RBRACE
  return (.dict tags, ctx3)

/-- The loop of `parse_list` (note it does not require commas between
elements: a missing comma just re-enters the loop). -/
def parse_list_loop (lit : LitParser) : Nat → List HVal → PCtx →
    Except ParseErr (HVal × PCtx)
  | 0, _, _ => .error .fuel
  | fuel + 1, acc, ctx =>
    let (rb, ctx1) := ctx.consume_if .RBRACKET
    if rb.isSome then .ok (.list acc, ctx1)
    else
      match lit ctx with
      | .error e => .error e
      | .ok (v, ctx2) =>
        let (_, ctx3) := ctx2.consume_if .COMMA
        parse_list_loop lit fuel (acc ++ [v]) ctx3

def parse_list (lit : LitParser) (fuel : Nat) (ctx : PCtx) :
    Except ParseErr (HVal × PCtx) := do
  let (_, ctx1) ← ctx.consume .LBRACKET
  parse_list_loop lit fuel [] ctx1

def parse_col (lit : LitParser) (fuel : Nat) (index : Nat) (ctx : PCtx) :
    Except ParseErr (HCol × PCtx) := do
  let (name, ctx1) ← ctx.consume .IDENTIFIER
  let (meta, ctx2) ← parse_tags_loop lit fuel false [] ctx1
  return (.mk index name meta, ctx2)

/-- The loop of `parse_cols`, ending with the mandatory `LINEFEED`. -/
def parse_cols_loop (lit : LitParser) : Nat → List HCol → PCtx →
    Except ParseErr (List HCol × PCtx)
  | 0, _, _ => .error .fuel
  | fuel + 1, acc, ctx =>
    match parse_col lit fuel acc.length ctx with
    | .error e => .error e
    | .ok (col, ctx1) =>
      let acc1 := acc ++ [col]
      let (comma, ctx2) := ctx1.consume_if .COMMA
      if comma.isSome then parse_cols_loop lit fuel acc1 ctx2
      else
        match ctx2.consume .LINEFEED with
        | .error e => .error e
        | .ok (_, ctx3) => .ok (acc1, ctx3)

/-- The cell loop of `parse_row`: a leading/adjacent comma contributes
a `Null`, a linefeed met while expecting a cell contributes a final
`Null`, and there is no comparison of the cell count with the column
count. -/
def parse_row_loop (lit : LitParser) : Nat → List HVal → PCtx →
    Except ParseErr (List HVal × PCtx)
  | 0, _, _ => .error .fuel
  | fuel + 1, cells, ctx =>
    let (lf, ctx1) := ctx.consume_if .LINEFEED
    if lf.isSome then .ok (cells ++ [HVal.null], ctx1)
    else
      let (comma, ctx2) := ctx.consume_if .COMMA
      if comma.isSome then parse_row_loop lit fuel (cells ++ [HVal.null]) ctx2
      else
        match lit ctx with
        | .error e => .error e
        | .ok (v, ctx3) =>
          let (lf2, ctx4) := ctx3.consume_if .LINEFEED
          if lf2.isSome then .ok (cells ++ [v], ctx4)
          else
            match ctx4.consume .COMMA with
            | .error e => .error e
            | .ok (_, ctx5) => parse_row_loop lit fuel (cells ++ [v]) ctx5

def parse_row (lit : LitParser) (fuel : Nat) (ctx : PCtx) :
    Except ParseErr (List HVal × PCtx) := do
  let (cells, ctx1) ← parse_row_loop lit fuel [] ctx
  if cells.length == 0 then .error (.assemble "Row must contain at least one item")
  else return (cells, ctx1)

/-- The row loop of `parse_nested_grid`: rows until `GRID_END`. -/
def parse_nested_rows (lit : LitParser) : Nat → List (List HVal) → PCtx →
    Except ParseErr (List (List HVal) × PCtx)
  | 0, _, _ => .error .fuel
  | fuel + 1, acc, ctx =>
    let (ge, ctx1) := ctx.consume_if .GRID_END
    if ge.isSome then .ok (acc, ctx1)
    else
      match parse_row lit fuel ctx with
      | .error e => .error e
      | .ok (row, ctx2) => parse_nested_rows lit fuel (acc ++ [row]) ctx2

def parse_nested_grid (lit : LitParser) (fuel : Nat) (ctx : PCtx) :
    Except ParseErr (HVal × PCtx) := do
  let (_, ctx1) ← ctx.consume .GRID_START
  let (ver, ctx2) ← parse_grid_ver ctx1
  let (meta, ctx3) ← parse_tags_loop lit fuel false [] ctx2
  let (_, ctx4) ← ctx3.consume .LINEFEED
  if ver ≠ "3.0" then .error (.assemble "Expected version 3.0")
  else do
    let (cols, ctx5) ← parse_cols_loop lit fuel [] ctx4
    let (rows, ctx6) ← parse_nested_rows lit fuel [] ctx5
    return (.grid (.mk meta cols rows), ctx6)

/-- `parse_literal`: dispatch on the kinds of the current and lookahead
tokens, exactly in the order of the source's `match`; the recursive
positions receive `parse_literal fuel` as their literal parser. -/
def parse_literal : Nat → PCtx → Except ParseErr (HVal × PCtx)
  | 0, _ => .error .fuel
  | fuel + 1, ctx =>
    match ctx.cur with
    | none => .error (.reader (.readException "Unexpected end"))
    | some tok =>
      let peekT : Option ZincTokenType := ctx.peek.map (fun p => p.t)
      if tok.t == .KEYWORD && peekT == some .LPAREN && tok.s == "C" then
        parse_coord ctx
      else if tok.t == .KEYWORD && peekT == some .LPAREN && tok.s == "Bin" then
        parse_bin ctx
      else if tok.t == .KEYWORD && peekT == some .LPAREN then
        parse_xstr ctx
      else if tok.t == .LBRACKET then
        parse_list (parse_literal fuel) fuel ctx
      else if tok.t == .LBRACE then
        parse_dict (parse_literal fuel) fuel ctx
      else if tok.t == .GRID_START then
        parse_nested_grid (parse_literal fuel) fuel ctx
      else if tok.t == .REF then parse_ref ctx
      else if tok.t == .SYMBOL then parse_symbol ctx
      else if tok.t == .BOOL then parse_bool ctx
      else if tok.t == .URI then parse_uri ctx
      else if tok.t == .NUMBER then parse_num ctx
      else if tok.t == .STR then parse_str ctx
      else if tok.t == .DATE then parse_date ctx
      else if tok.t == .TIME then parse_time ctx
      else if tok.t == .DATETIME then parse_date_time ctx
      else if tok.t == .KEYWORD && tok.s == "N" then parse_null ctx
      else if tok.t == .KEYWORD && tok.s == "M" then parse_marker ctx
      else if tok.t == .KEYWORD && tok.s == "R" then parse_remove ctx
      else if tok.t == .KEYWORD && tok.s == "NA" then parse_na ctx
      else .error (.assemble "Unexpected token")

/-- `parse_tags` with the literal parser instantiated. -/
def parse_tags (fuel : Nat) (allowComma : Bool) (ctx : PCtx) :
    Except ParseErr (List (String × HVal) × PCtx) :=
  parse_tags_loop (parse_literal fuel) fuel allowComma [] ctx

/-- `parse_cols` with the literal parser instantiated. -/
def parse_cols (fuel : Nat) (ctx : PCtx) : Except ParseErr (List HCol × PCtx) :=
  parse_cols_loop (parse_literal fuel) fuel [] ctx

/-- The row loop of `parse_root`: rows until the token stream is
exhausted. -/
def parse_root_rows : Nat → List (List HVal) → PCtx →
    Except ParseErr (List (List HVal) × PCtx)
  | 0, _, _ => .error .fuel
  | fuel + 1, acc, ctx =>
    match ctx.cur with
    | none => .ok (acc, ctx)
    | some _ =>
      match parse_row (parse_literal fuel) fuel ctx with
      | .error e => .error e
      | .ok (row, ctx1) => parse_root_rows fuel (acc ++ [row]) ctx1

/-- `parse_root`: version line (meta tags parsed with
`allow_comma=False`), column line, then rows to the end of the
stream. -/
def parse_root (fuel : Nat) (ctx : PCtx) : Except ParseErr (HGrid × PCtx) := do
  let (ver, ctx1) ← parse_grid_ver ctx
  let (meta, ctx2) ← parse_tags fuel false ctx1
  let (_, ctx3) ← ctx2.consume .LINEFEED
  if ver ≠ "3.0" then .error (.assemble "Expected version 3.0")
  else do
    let (cols, ctx4) ← parse_cols fuel ctx3
    let (rows, ctx5) ← parse_root_rows fuel [] ctx4
    return (.mk meta cols rows, ctx5)

end ZincParser

/-- Errors of the whole read pipeline. -/
inductive ZincErr where
  | lexErr (e : ZincLexer.LexErr)
  | parseErr (e : ZincParser.ParseErr)
  deriving DecidableEq, Repr

/-- The end-to-end reader used by `Client.eval`: characters → lexer →
tokens → parser → grid. -/
def readZincGrid (s : String) : Except ZincErr HGrid :=
  match ZincLexer.tokenizeString s with
  | .error e => .error (.lexErr e)
  | .ok toks =>
    match ZincParser.parse_root (2 * toks.length + 32) (ZincParser.PCtx.make toks) with
    | .error e => .error (.parseErr e)
    | .ok (g, _) => .ok g

/-! ### Unpadded url-safe base64 (`src/helpers/unpadded_base64.py`)

The helpers call Python's `base64.urlsafe_b64encode` /
`urlsafe_b64decode`; strings cross the boundary as their UTF-8 bytes
(`str.encode`/`bytes.decode` form a bijection between strings and
valid UTF-8 byte sequences), so the model works on byte lists. -/

namespace UnpaddedBase64

/-- The url-safe base64 alphabet: sextet to character. -/
def b64Char (n : Nat) : Char :=
  if n < 26 then Char.ofNat ('A'.toNat + n)
  else if n < 52 then Char.ofNat ('a'.toNat + (n - 26))
  else if n < 62 then Char.ofNat ('0'.toNat + (n - 52))
  else if n = 62 then '-'
  else '_'

/-- Character to sextet; `none` for anything outside the url-safe
alphabet (in particular for `'='`). -/
def b64Val (c : Char) : Option Nat :=
  if 'A'.toNat ≤ c.toNat ∧ c.toNat ≤ 'Z'.toNat then some (c.toNat - 'A'.toNat)
  else if 'a'.toNat ≤ c.toNat ∧ c.toNat ≤ 'z'.toNat then some (c.toNat - 'a'.toNat + 26)
  else if '0'.toNat ≤ c.toNat ∧ c.toNat ≤ '9'.toNat then some (c.toNat - '0'.toNat + 52)
  else if c = '-' then some 62
  else if c = '_' then some 63
  else none

/-- `base64.urlsafe_b64encode` (RFC 4648): three bytes at a time into
four characters, with `'='` padding for a short final group. -/
def b64EncodeBytes : List Nat → List Char
  | a :: b :: c :: rest =>
    b64Char (a / 4) :: b64Char ((a % 4) * 16 + b / 16)
      :: b64Char ((b % 16) * 4 + c / 64) :: b64Char (c % 64) :: b64EncodeBytes rest
  | [a, b] => [b64Char (a / 4), b64Char ((a % 4) * 16 + b / 16), b64Char ((b % 16) * 4), '=']
  | [a] => [b64Char (a / 4), b64Char ((a % 4) * 16), '=', '=']
  | [] => []

/-- `.rstrip("=")`. -/
def rstripEq (cs : List Char) : List Char :=
  ((cs.reverse.dropWhile (fun c => c == '=')).reverse)

/-- The data part of the decoder: four sextets to three bytes, a final
group of three to two bytes, of two to one byte. -/
def b64DecodeData : List Nat → List Nat
  | a :: b :: c :: d :: rest =>
    (a * 4 + b / 16) :: ((b % 16) * 16 + c / 4) :: ((c % 4) * 64 + d) :: b64DecodeData rest
  | [a, b, c] => [a * 4 + b / 16, (b % 16) * 16 + c / 4]
  | [a, b] => [a * 4 + b / 16]
  | _ => []

/-- `base64.urlsafe_b64decode` as Python's non-strict
`binascii.a2b_base64` behaves on inputs made of alphabet characters
followed by `'='` padding (the only shape the repository feeds it):
non-alphabet characters do not count as data; the number of data
characters must not be `1 mod 4`; the total length must reach the next
multiple of four past the data — extra padding beyond that is
tolerated. -/
def a2bBase64 (cs : List Char) : Option (List Nat) :=
  let data := cs.filterMap b64Val
  if data.length % 4 = 1 then none
  else if cs.length < 4 * ((data.length + 3) / 4) then none
  else some (b64DecodeData data)

/-- `unpadded_base64_encode`: url-safe base64 with trailing `'='`
stripped. -/
def unpadded_base64_encode (bytes : List Nat) : List Char :=
  rstripEq (b64EncodeBytes bytes)

/-- `unpadded_base64_decode`: append `len(encoded) % 4` padding
characters — note this is NOT the complement to a multiple of four —
then decode. -/
def unpadded_base64_decode (cs : List Char) : Option (List Nat) :=
  a2bBase64 (cs ++ List.replicate (cs.length % 4) '=')

/-- The unpadded encoding written directly (no padding, nothing to
strip); used to relate `rstripEq` to `b64EncodeBytes`. -/
def encUnpadded : List Nat → List Char
  | a :: b :: c :: rest =>
    b64Char (a / 4) :: b64Char ((a % 4) * 16 + b / 16)
      :: b64Char ((b % 16) * 4 + c / 64) :: b64Char (c % 64) :: encUnpadded rest
  | [a, b] => [b64Char (a / 4), b64Char ((a % 4) * 16 + b / 16), b64Char ((b % 16) * 4)]
  | [a] => [b64Char (a / 4), b64Char ((a % 4) * 16)]
  | [] => []

/-- How many `'='` characters `b64EncodeBytes` appends. -/
def padLen : List Nat → Nat
  | _ :: _ :: _ :: rest => padLen rest
  | [_, _] => 1
  | [_] => 2
  | [] => 0

/-- The sextet stream of a byte list. -/
def sextets : List Nat → List Nat
  | a :: b :: c :: rest =>
    a / 4 :: ((a % 4) * 16 + b / 16) :: ((b % 16) * 4 + c / 64) :: (c % 64) :: sextets rest
  | [a, b] => [a / 4, (a % 4) * 16 + b / 16, (b % 16) * 4]
  | [a] => [a / 4, (a % 4) * 16]
  | [] => []

end UnpaddedBase64

/-! ### The authentication handshake (`src/client/client.py`) -/

namespace Client

/-- The exceptions `authenticate` can raise: its own
`Client.AuthenticationError`, and the built-in `KeyError` /
`ValueError` / `binascii.Error` that escape from dictionary accesses,
header parsing and base64 decoding. `scramException` stands for the
SCRAM library's error. -/
inductive AuthErr where
  | authenticationError (msg : String)
  | keyError (key : String)
  | valueError
  | binasciiError
  | scramException
  deriving DecidableEq, Repr

/-- One HTTP response: status code and headers. -/
structure HttpResponse where
  status : Nat
  headers : List (String × String)

/-- `response.headers.get(name)` (the concrete inputs below use the
canonical header casing, so a plain lookup models the case-insensitive
aiohttp multidict). -/
def headerGet (headers : List (String × String)) (name : String) : Option String :=
  (headers.find? (fun p => p.1 == name)).map (fun p => p.2)

/-- `str.lower()` (over the character list, so that it computes). -/
def lowerStr (s : String) : String :=
  String.mk (s.data.map Char.toLower)

/-- `str.strip(' ')`. -/
def stripSpaces (s : String) : String :=
  String.mk ((s.data.dropWhile (fun c => c == ' ')).reverse.dropWhile
    (fun c => c == ' ') |>.reverse)

/-- Split on every occurrence of a separator character (Python
`str.split(sep)` for a one-character separator). -/
def splitOnChar (sep : Char) (l : List Char) : List (List Char) :=
  match l with
  | [] => [[]]
  | c :: rest =>
    let r := splitOnChar sep rest
    if c == sep then [] :: r
    else
      match r with
      | h :: t => (c :: h) :: t
      | [] => [[c]]

/-- `MessageParameters.decode`: split on commas, split each pair on
`=` (exactly one `=` required, otherwise the tuple unpacking raises
`ValueError`), strip spaces, lowercase the key. -/
def messageParametersDecode (s : String) : Except AuthErr (List (String × String)) :=
  let pairs := splitOnChar ',' s.data
  pairs.foldlM
    (fun acc pair =>
      match splitOnChar '=' pair with
      | [k, v] =>
        .ok (acc ++ [(lowerStr (stripSpaces (String.mk k)), stripSpaces (String.mk v))])
      | _ => .error .valueError)
    []

/-- `MessageParameters.__getitem__`: lowercase the key, then a plain
dict lookup raising `KeyError` when absent. -/
def paramsGet (params : List (String × String)) (key : String) :
    Except AuthErr String :=
  match (params.find? (fun p => p.1 == lowerStr key)).map (fun p => p.2) with
  | some v => .ok v
  | none => .error (.keyError key)

/-- `SkysparkAuthHeader.decode`: split scheme from the remainder at the
first space (`split(" ", 1)`; no space raises `ValueError`), then parse
the parameters. -/
def skysparkAuthHeaderDecode (raw : String) :
    Except AuthErr (String × List (String × String)) :=
  match raw.data.findIdx? (fun c => c == ' ') with
  | none => .error .valueError
  | some idx => do
    let schema := String.mk (raw.data.take idx)
    let params ← messageParametersDecode (String.mk (raw.data.drop (idx + 1)))
    return (schema, params)

/-- The inline `urlsafe_b64decode((data + "=" * (len(data) % 4)).encode()).decode()`
of `authenticate` — same formula as `unpadded_base64_decode`.  The
resulting bytes are read back as text (ASCII suffices for the SCRAM
payloads of the claims). -/
def inlineB64Decode (s : String) : Except AuthErr String :=
  match UnpaddedBase64.unpadded_base64_decode s.data with
  | some bytes => .ok (String.mk (bytes.map Char.ofNat))
  | none => .error .binasciiError

/-- The external `scramp.ScramClient`, abstracted: the two client
messages it produces and the two server-message checks it performs. -/
structure ScramOps where
  clientFirst : String
  setServerFirst : String → Except AuthErr Unit
  clientFinal : String
  setServerFinal : String → Except AuthErr Unit

/-- `Client.authenticate` as a function of the three HTTP responses of
the handshake.  The result is the list of headers added to the session
(the bearer `Authorization` header on success); every raise leaves the
session without it. -/
def authenticate (r1 r2 r3 : HttpResponse) (scram : ScramOps) :
    Except AuthErr (List (String × String)) := do
  -- hello round-trip
  if r1.status ≠ 401 then
    throw (.authenticationError "Expected status code 401")
  let wwwAuth1 ←
    match headerGet r1.headers "WWW-Authenticate" with
    | none => throw (.authenticationError "Missing authentication header")
    | some h => pure h
  let (schema, params1) ← skysparkAuthHeaderDecode wwwAuth1
  if schema ≠ "scram" then
    throw (.authenticationError "Unsupported authentication scheme")
  let handshakeToken ← paramsGet params1 "handshaketoken"
  let authHashAlgo ← paramsGet params1 "hash"
  if authHashAlgo ≠ "SHA-256" ∧ authHashAlgo ≠ "SHA-512" then
    throw (.authenticationError "Unsupported hashing algorithm")
  let _ := handshakeToken
  let _ := scram.clientFirst
  -- scram first round-trip
  if r2.status ≠ 401 then
    throw (.authenticationError "Expected status code 401 after client first")
  let wwwAuth2 ←
    match headerGet r2.headers "WWW-Authenticate" with
    | none => throw (.authenticationError "Missing authentication header after client first")
    | some h => pure h
  let (_, params2) ← skysparkAuthHeaderDecode wwwAuth2
  let _ ← paramsGet params2 "handshaketoken"
  let data2 ← paramsGet params2 "data"
  let serverFirst ← inlineB64Decode data2
  let _ ← scram.setServerFirst serverFirst
  let _ := scram.clientFinal
  -- scram final round-trip
  if r3.status ≠ 200 then
    throw (.authenticationError "Expected status code 200 after client final")
  -- the source indexes the headers dict directly here:
  -- `response.headers["Authentication-Info"]` — a missing header is a
  -- KeyError, not an AuthenticationError
  let authenticationInfo ←
    match headerGet r3.headers "Authentication-Info" with
    | none => throw (.keyError "Authentication-Info")
    | some h => pure h
  let params3 ← messageParametersDecode authenticationInfo
  let authToken ← paramsGet params3 "authtoken"
  let data3 ← paramsGet params3 "data"
  let serverFinal ← inlineB64Decode data3
  -- `except ScramException: raise Client.AuthenticationError(...)`
  match scram.setServerFinal serverFinal with
  | .error .scramException => throw (.authenticationError "Authenticatio failed")
  | .error e => throw e
  | .ok _ => pure ()
  return [("Authorization", "bearer authtoken=" ++ authToken)]

/-- The session headers after a call to `authenticate`: the bearer
header is added by the final statement, so an exception leaves the
session without it. -/
def sessionHeadersAfter (r1 r2 r3 : HttpResponse) (scram : ScramOps) :
    List (String × String) :=
  match authenticate r1 r2 r3 scram with
  | .ok hs => hs
  | .error _ => []

/-- A SCRAM stand-in whose checks always pass: the deviations the
verified property examines occur in the HTTP layer, before any SCRAM
verification. -/
def passingScram : ScramOps :=
  ⟨"n,,n=user,r=nonce", fun _ => .ok (), "c=biws,r=nonce,p=proof", fun _ => .ok ()⟩

end Client

/-! ## Theorems -/

open ZincGrammar ZincLexer ZincParser HZincReader UnpaddedBase64 Client

/-- C1: lexing then parsing the five-line document — version header,
column line `id, name, value`, and the three rows — yields a grid with
empty meta, the three columns `(0,"id",{})`, `(1,"name",{})`,
`(2,"value",{})`, and exactly the rows
`[[Ref "a", Str "alpha", Num 1], [Ref "b", Str "beta", Null],
[Null, Str "gamma", Num 3.0 "kW"]]`: the trailing comma of row two
yields a final `Null` and the leading comma of row three a leading
`Null`. -/
theorem C1_end_to_end_grid :
    readZincGrid "ver:\"3.0\"\nid, name, value\n@a,\"alpha\",1\n@b,\"beta\",\n,\"gamma\",3.0kW\n" =
      .ok (.mk []
        [.mk 0 "id" [], .mk 1 "name" [], .mk 2 "value" []]
        [[.ref "a" none, .str "alpha", .num ⟨.rat ⟨1, 1⟩, none⟩],
         [.ref "b" none, .str "beta", .null],
         [.null, .str "gamma", .num ⟨.rat ⟨3, 1⟩, some "kW"⟩]]) := by
  rfl

/-- C2: the zinc lexer performs NO post-processing of keyword lexemes:
`"T"`, `"F"`, `"NaN"` and `"INF"` all come out as `KEYWORD` tokens
(the claim says `BOOL` resp. `NUMBER`), and consequently a document
with a boolean cell fails to parse, since the parser's `BOOL` branch
can never be reached from this lexer. -/
theorem C2_keyword_not_postprocessed :
    tokenizeString "T" = .ok [⟨.KEYWORD, "T"⟩] ∧
    tokenizeString "F" = .ok [⟨.KEYWORD, "F"⟩] ∧
    tokenizeString "NaN" = .ok [⟨.KEYWORD, "NaN"⟩] ∧
    tokenizeString "INF" = .ok [⟨.KEYWORD, "INF"⟩] ∧
    readZincGrid "ver:\"3.0\"\na\nT\n" =
      .error (.parseErr (.assemble "Unexpected token")) := by
  exact ⟨rfl, rfl, rfl, rfl, rfl⟩

/-- C3: on current character `'>'` with peek `'>'` the lexer yields
`GRID_START` — not `GRID_END` as the claim states — and consequently a
document whose cell holds `<<ver:"3.0"\nx\n1\n>>` fails to parse: the
closing `>>` comes back as a second `GRID_START` and the parser dies
looking for the nested grid it announces. -/
theorem C3_closing_digraph_lexes_as_grid_start :
    tokenizeString ">>" = .ok [⟨.GRID_START, ">>"⟩] ∧
    readZincGrid "ver:\"3.0\"\na\n<<ver:\"3.0\"\nx\n1\n>>\n" =
      .error (.parseErr (.assemble "Unexpected token kind")) := by
  exact ⟨rfl, rfl⟩

/-- C4: `parse_root` accepts non-rectangular documents: the document
`ver:"3.0" / a, b / 1` — two columns, one row of a single cell —
parses successfully into a grid whose row has 1 cell against 2
columns, contradicting the claimed invariant
`len(rows[i]) == len(cols)`. -/
theorem C4_rectangularity_not_enforced :
    readZincGrid "ver:\"3.0\"\na, b\n1\n" =
      .ok (.mk [] [.mk 0 "a" [], .mk 1 "b" []] [[.num ⟨.rat ⟨1, 1⟩, none⟩]]) ∧
    (HGrid.mk [] [.mk 0 "a" [], .mk 1 "b" []] [[.num ⟨.rat ⟨1, 1⟩, none⟩]]).cols.length = 2 ∧
    (HGrid.mk [] [.mk 0 "a" [], .mk 1 "b" []] [[.num ⟨.rat ⟨1, 1⟩, none⟩]]).rows.map
      List.length = [1] := by
  exact ⟨rfl, rfl, rfl⟩

/-! Auxiliary lemmas for the base64 round trip (C5). -/

theorem b64Val_b64Char : ∀ n < 64, b64Val (b64Char n) = some n := by decide

theorem b64Char_ne_pad : ∀ n < 64, b64Char n ≠ '=' := by decide

theorem sextets_lt : ∀ (b : List Nat), (∀ x ∈ b, x < 256) → ∀ s ∈ sextets b, s < 64
  | [], _, s, hs => by simp [sextets] at hs
  | a :: b :: c :: rest, h, s, hs => by
    simp only [sextets, List.cons_append, List.mem_cons] at hs
    have ha := h a (by simp)
    have hb := h b (by simp)
    have hc := h c (by simp)
    rcases hs with rfl | rfl | rfl | rfl | hs
    · omega
    · omega
    · omega
    · omega
    · exact sextets_lt rest (fun x hx => h x (by simp [hx])) s hs
  | [a, b], h, s, hs => by
    simp only [sextets, List.mem_cons, List.not_mem_nil, or_false] at hs
    have ha := h a (by simp)
    have hb := h b (by simp)
    rcases hs with rfl | rfl | rfl <;> omega
  | [a], h, s, hs => by
    simp only [sextets, List.mem_cons, List.not_mem_nil, or_false] at hs
    have ha := h a (by simp)
    rcases hs with rfl | rfl <;> omega

theorem encUnpadded_eq_map : ∀ b : List Nat, encUnpadded b = (sextets b).map b64Char
  | [] => rfl
  | [a] => rfl
  | [a, b] => rfl
  | a :: b :: c :: rest => by
    simp only [encUnpadded, sextets, List.map_cons]
    rw [encUnpadded_eq_map rest]

theorem enc_eq_unpadded_pad :
    ∀ b : List Nat, b64EncodeBytes b = encUnpadded b ++ List.replicate (padLen b) '='
  | [] => rfl
  | [a] => rfl
  | [a, b] => rfl
  | a :: b :: c :: rest => by
    simp only [b64EncodeBytes, encUnpadded, padLen, List.cons_append]
    rw [enc_eq_unpadded_pad rest]

theorem encUnpadded_no_pad (b : List Nat) (h : ∀ x ∈ b, x < 256) :
    ∀ c ∈ encUnpadded b, c ≠ '=' := by
  rw [encUnpadded_eq_map]
  intro c hc
  rcases List.mem_map.mp hc with ⟨s, hs, rfl⟩
  exact b64Char_ne_pad s (sextets_lt b h s hs)

theorem dropWhile_pad_replicate (k : Nat) (xs : List Char) :
    (List.replicate k '=' ++ xs).dropWhile (fun c => c == '=') =
      xs.dropWhile (fun c => c == '=') := by
  induction k with
  | zero => rfl
  | succ n ih =>
    rw [List.replicate_succ, List.cons_append, List.dropWhile_cons_of_pos (by rfl)]
    exact ih

theorem dropWhile_pad_of_no_pad (xs : List Char) (h : ∀ c ∈ xs, c ≠ '=') :
    xs.dropWhile (fun c => c == '=') = xs := by
  cases xs with
  | nil => rfl
  | cons c t =>
    have : (c == '=') = false := by
      have := h c (by simp)
      simp [this]
    simp [List.dropWhile, this]

theorem rstripEq_append_pad (pre : List Char) (k : Nat) (h : ∀ c ∈ pre, c ≠ '=') :
    rstripEq (pre ++ List.replicate k '=') = pre := by
  unfold rstripEq
  rw [List.reverse_append, List.reverse_replicate, dropWhile_pad_replicate,
    dropWhile_pad_of_no_pad _ (fun c hc => h c (List.mem_reverse.mp hc)),
    List.reverse_reverse]

theorem encode_eq_encUnpadded (b : List Nat) (h : ∀ x ∈ b, x < 256) :
    unpadded_base64_encode b = encUnpadded b := by
  unfold unpadded_base64_encode
  rw [enc_eq_unpadded_pad, rstripEq_append_pad _ _ (encUnpadded_no_pad b h)]

theorem filterMap_map_b64Char (l : List Nat) (h : ∀ s ∈ l, s < 64) :
    (l.map b64Char).filterMap b64Val = l := by
  induction l with
  | nil => rfl
  | cons s t ih =>
    simp only [List.map_cons, List.filterMap_cons,
      b64Val_b64Char s (h s (by simp))]
    rw [ih (fun x hx => h x (by simp [hx]))]

theorem filterMap_replicate_pad (k : Nat) :
    (List.replicate k '=').filterMap b64Val = [] := by
  induction k with
  | zero => rfl
  | succ n ih =>
    rw [List.replicate_succ, List.filterMap_cons_none (by rfl)]
    exact ih

theorem sextets_len_mod : ∀ b : List Nat,
    (sextets b).length % 4 = 0 ∨ (sextets b).length % 4 = 2 ∨ (sextets b).length % 4 = 3
  | [] => by simp [sextets]
  | [a] => by simp [sextets]
  | [a, b] => by simp [sextets]
  | a :: b :: c :: rest => by
    have ih := sextets_len_mod rest
    simp only [sextets, List.length_cons, List.length_append]
    omega

theorem decodeData_sextets : ∀ b : List Nat, (∀ x ∈ b, x < 256) →
    b64DecodeData (sextets b) = b
  | [], _ => rfl
  | [a], h => by
    have ha := h a (by simp)
    simp only [sextets, b64DecodeData]
    have e1 : a / 4 * 4 + a % 4 * 16 / 16 = a := by omega
    rw [e1]
  | [a, b], h => by
    have ha := h a (by simp)
    have hb := h b (by simp)
    simp only [sextets, b64DecodeData]
    have e1 : a / 4 * 4 + (a % 4 * 16 + b / 16) / 16 = a := by omega
    have e2 : (a % 4 * 16 + b / 16) % 16 * 16 + b % 16 * 4 / 4 = b := by omega
    rw [e1, e2]
  | a :: b :: c :: rest, h => by
    have ha := h a (by simp)
    have hb := h b (by simp)
    have hc := h c (by simp)
    simp only [sextets, List.cons_append, b64DecodeData]
    rw [decodeData_sextets rest (fun x hx => h x (by simp [hx]))]
    have e1 : a / 4 * 4 + (a % 4 * 16 + b / 16) / 16 = a := by omega
    have e2 : (a % 4 * 16 + b / 16) % 16 * 16 + (b % 16 * 4 + c / 64) / 4 = b := by omega
    have e3 : (b % 16 * 4 + c / 64) % 4 * 64 + c % 64 = c := by omega
    rw [e1, e2, e3]

/-- C5 counterexample: for the two-byte input `"aa"` the encoder yields
`"YWE"` (length 3), and the decoder's `"=" * (len % 4)` formula appends
THREE padding characters: the text it decodes has length 6, which is
NOT a multiple of four — the decoding still succeeds only because the
underlying base64 decoder tolerates excess padding. -/
theorem C5_counterexample_padding_formula :
    String.mk (unpadded_base64_encode [97, 97]) = "YWE" ∧
    ((unpadded_base64_encode [97, 97]) ++
      List.replicate ((unpadded_base64_encode [97, 97]).length % 4) '=').length % 4 = 2 := by
  exact ⟨rfl, rfl⟩

/-- C5 (amended): the decoder appends `len(encoded) % 4` padding
characters — the right amount when `len % 4` is 0 or 2, but one MORE
than needed when `len % 4 = 3`, so the padded text is not always a
multiple of four; since the underlying decoder tolerates the excess,
the round trip `unpadded_base64_decode (unpadded_base64_encode s)) = s`
still holds for every input (here: for every UTF-8 byte sequence). -/
theorem C5_round_trip (b : List Nat) (h : ∀ x ∈ b, x < 256) :
    unpadded_base64_decode (unpadded_base64_encode b) = some b := by
  rw [encode_eq_encUnpadded b h, encUnpadded_eq_map]
  unfold unpadded_base64_decode
  rw [List.length_map]
  unfold a2bBase64
  have hdata : (((sextets b).map b64Char ++
      List.replicate ((sextets b).length % 4) '=').filterMap b64Val) =
      sextets b := by
    rw [List.filterMap_append, filterMap_map_b64Char _ (sextets_lt b h),
      filterMap_replicate_pad, List.append_nil]
  simp only [hdata, List.length_append, List.length_map, List.length_replicate]
  have hmod := sextets_len_mod b
  rw [if_neg (by omega), if_neg (by omega)]
  rw [decodeData_sextets b h]

/-- Witness for C5 at the two-byte input `"hi"`. -/
theorem C5_round_trip_witness :
    (∀ x ∈ [104, 105], x < 256) ∧
      unpadded_base64_decode (unpadded_base64_encode [104, 105]) = some [104, 105] :=
  ⟨by decide, C5_round_trip [104, 105] (by decide)⟩

/-- C6: at the third round-trip the source reads the
`Authentication-Info` header by direct indexing, so when that header is
missing (with the expected 200 status) the raised exception is a
`KeyError`, not `Client.AuthenticationError`; the bearer header is
still not added.  The other deviations — wrong status, missing
`WWW-Authenticate`, unsupported scheme, unsupported hash — do raise
`AuthenticationError` as the claim says. -/
theorem C6_missing_authentication_info_raises_key_error :
    authenticate ⟨401, [("WWW-Authenticate", "scram handshakeToken=aabbcc, hash=SHA-256")]⟩
        ⟨401, [("WWW-Authenticate", "scram handshakeToken=ddeeff, data=YWE")]⟩
        ⟨200, []⟩ passingScram = .error (.keyError "Authentication-Info") ∧
    sessionHeadersAfter ⟨401, [("WWW-Authenticate", "scram handshakeToken=aabbcc, hash=SHA-256")]⟩
        ⟨401, [("WWW-Authenticate", "scram handshakeToken=ddeeff, data=YWE")]⟩
        ⟨200, []⟩ passingScram = [] ∧
    authenticate ⟨200, []⟩ ⟨401, []⟩ ⟨200, []⟩ passingScram =
      .error (.authenticationError "Expected status code 401") ∧
    authenticate ⟨401, []⟩ ⟨401, []⟩ ⟨200, []⟩ passingScram =
      .error (.authenticationError "Missing authentication header") ∧
    authenticate ⟨401, [("WWW-Authenticate", "basic handshakeToken=a, hash=SHA-256")]⟩
        ⟨401, []⟩ ⟨200, []⟩ passingScram =
      .error (.authenticationError "Unsupported authentication scheme") ∧
    authenticate ⟨401, [("WWW-Authenticate", "scram handshakeToken=a, hash=MD5")]⟩
        ⟨401, []⟩ ⟨200, []⟩ passingScram =
      .error (.authenticationError "Unsupported hashing algorithm") := by
  exact ⟨rfl, rfl, rfl, rfl, rfl, rfl⟩

/-- C7: the lexer DOES consume the trailing space of a ref —
`_consume_ref` ends with `consume_if(is_ref_end, segments)` — so for
the input `"@a "` the `REF` lexeme is `"@a "` (not `"@a"` as the claim
states), and `read_ref` then stores `"a "`, space included, as the ref
id. -/
theorem C7_ref_trailing_space_consumed :
    tokenizeString "@a " = .ok [⟨.REF, "@a "⟩] ∧
    read_ref "@a " = .ok "a " := by
  exact ⟨rfl, rfl⟩

/-- C8 counterexample: `parse_root` parses root-grid meta with
`allow_comma=False`, so the header line `ver:"3.0" a:1, b:2` is
rejected — after the first tag the parser stands on the comma where it
demands the `LINEFEED`. -/
theorem C8_counterexample_comma_meta_rejected :
    readZincGrid "ver:\"3.0\" a:1, b:2\nx\n1\n" =
      .error (.parseErr (.assemble "Unexpected token kind")) := by
  rfl

/-- C8 (amended): root-grid meta tags must NOT be comma-separated
(`parse_root` passes `allow_comma=False`; commas between tags are
accepted only inside dicts); with the tags juxtaposed without commas,
parsing succeeds and the meta dict holds every listed tag. -/
theorem C8_root_meta_tags_without_commas :
    readZincGrid "ver:\"3.0\" a:1 b:2\nx\n1\n" =
      .ok (.mk [("a", .num ⟨.rat ⟨1, 1⟩, none⟩), ("b", .num ⟨.rat ⟨2, 1⟩, none⟩)]
        [.mk 0 "x" []] [[.num ⟨.rat ⟨1, 1⟩, none⟩]]) := by
  rfl

/-- C9 counterexample: the source compares `ord(c) > 128`, so the
character U+0080 — codepoint 128, strictly greater than 0x7F — is NOT
a unit character, contradicting the claimed `> 0x7F` threshold. -/
theorem C9_counterexample_codepoint_128 :
    is_unit_char (Char.ofNat 128) = false ∧ 0x7F < (Char.ofNat 128).toNat := by
  exact ⟨rfl, by decide⟩

/-- C9 (amended): `is_unit_char c` is true exactly for the alphabetic
characters, `'%'`, `'_'`, `'/'`, `'$'`, and every codepoint strictly
greater than 0x80 (128) — not 0x7F as claimed — and `is_unit s` is
true exactly when every character of `s` satisfies `is_unit_char`. -/
theorem C9_is_unit_char_threshold_128 :
    (∀ c : Char, is_unit_char c = true ↔
      (is_alpha c = true ∨ c = '%' ∨ c = '_' ∨ c = '/' ∨ c = '$' ∨ 128 < c.toNat)) ∧
    (∀ s : String, is_unit s = true ↔ ∀ c ∈ s.data, is_unit_char c = true) := by
  constructor
  · intro c
    simp [is_unit_char, or_assoc]
  · intro s
    unfold is_unit
    generalize s.data = l
    induction l with
    | nil => simp [is_unit_list]
    | cons c t ih =>
      by_cases hc : is_unit_char c = true
      · simp [is_unit_list, hc, ih]
      · simp only [is_unit_list, hc, not_false_eq_true, if_pos]
        constructor
        · intro h
          exact absurd h (by simp)
        · intro h
          exact absurd (h c (by simp)) hc

/-- C10: `HNum.__eq__` ignores the unit: for two distinct `HNum`
objects whose wrapped values compare equal under Python float equality,
the comparison is true whatever the units are — equality of parsed
numbers is decided by the numeric value alone. -/
theorem C10_hnum_eq_ignores_unit (v : PFloat) (u1 u2 : Option String)
    (h : pyFloatEq v v = true) :
    hnumEq false ⟨v, u1⟩ ⟨v, u2⟩ = true := by
  simpa [hnumEq] using h

/-- Witness for C10 at `3.0` metres versus `3.0` seconds. -/
theorem C10_hnum_eq_ignores_unit_witness :
    pyFloatEq (.rat ⟨3, 1⟩) (.rat ⟨3, 1⟩) = true ∧
      hnumEq false ⟨.rat ⟨3, 1⟩, some "m"⟩ ⟨.rat ⟨3, 1⟩, some "s"⟩ = true :=
  ⟨by decide, C10_hnum_eq_ignores_unit (.rat ⟨3, 1⟩) (some "m") (some "s") (by decide)⟩

end PySpark
